import Mathlib

/-!
Verification of the GARU NBA-data backend core
(`backend/services/nba_service.py`): the rating estimator, the position
normalizer, the tiered roster cache, the journey reconstructor and the
journey cache.  Python numbers are modelled as rationals, Python strings
as `List Char` where character-level operations matter, and the fallible
I/O tiers as explicit environment records.
-/

namespace GARU

/-! ### Rating estimator — `fetch_all_players_live`, nba_service.py lines 237-247

`rating = min(99, max(60, int(50 + pts*1.5 + reb*0.8 + ast*1.2 + stl*2 + blk*2 + fg_pct*20)))`

Python `int()` on a float truncates toward zero; on the non-negative
rationals we model it exactly as ceiling below zero / floor at or above. -/

/-- Python `int(q)`: truncation toward zero. -/
def pyInt (q : ℚ) : ℤ := if q < 0 then ⌈q⌉ else ⌊q⌋

/-- The rating computation of `fetch_all_players_live` (lines 245-247),
with the stat-line fields passed positionally; `fg_pct` is the raw
field-goal value from the upstream row (a 0-1 fraction). -/
def rating (pts reb ast stl blk fg_pct : ℚ) : ℤ :=
  min 99 (max 60 (pyInt
    (50 + pts * 1.5 + reb * 0.8 + ast * 1.2 + stl * 2 + blk * 2 + fg_pct * 20)))

/-- Modelled from the spec's words (section 4.3), for the refinement
claim C5 only: `round(50 + 1.5*pts + 0.8*reb + 1.2*ast + 2*stl + 2*blk +
20*fg_pct_fraction)`, then clamp to [60,99].  The source's `rating`
truncates where this rounds. -/
def rate_spec (pts reb ast stl blk fg_pct : ℚ) : ℤ :=
  min 99 (max 60 (round
    (50 + pts * 1.5 + reb * 0.8 + ast * 1.2 + stl * 2 + blk * 2 + fg_pct * 20)))

/-! ### Position normalizer — `normalize_position` and
`infer_position_from_stats`, nba_service.py lines 324-403.

Raw position codes are modelled as `List Char`.  The stat dict built at
line 250 always carries the five keys pts/reb/ast/stl/blk, so it is a
record here; `none` stands for Python `None` (or an empty dict, which is
equally falsy at the `if stats` / `if not stats` checks on lines 331,
341, 350, 366, 377 and 382). -/

structure StatLine where
  pts : ℚ
  reb : ℚ
  ast : ℚ
  stl : ℚ
  blk : ℚ

/-- Python `str.upper()` (faithful on the ASCII codes the NBA API emits). -/
def pyUpper (s : List Char) : List Char := s.map Char.toUpper

/-- Python `str.strip()`: remove leading and trailing whitespace. -/
def pyStrip (s : List Char) : List Char :=
  ((s.dropWhile Char.isWhitespace).reverse.dropWhile Char.isWhitespace).reverse

/-- Python `str.split("-")`: split on every dash, keeping empty parts. -/
def splitDash : List Char → List (List Char)
  | [] => [[]]
  | c :: cs =>
    if c = '-' then [] :: splitDash cs
    else
      match splitDash cs with
      | h :: t => (c :: h) :: t
      | [] => [[c]]

/-- `infer_position_from_stats` (lines 380-403): the stats-only fallback
ladder, evaluated top to bottom, first match wins. -/
def infer_position_from_stats : Option StatLine → String
  | none => "SF"
  | some s =>
    if s.reb > 8 ∧ s.blk > 1 then "C"
    else if s.reb > 10 then "C"
    else if s.reb > 6 then "PF"
    else if s.ast > 5 then "PG"
    else if s.ast > 3 ∧ s.pts < 18 then "PG"
    else if s.pts > 15 ∧ s.reb < 5 ∧ s.ast < 5 then "SG"
    else "SF"

/-- The expression `infer_position_from_stats(stats) if stats else "SF"`
(lines 331 and 377). -/
def statsFallback : Option StatLine → String
  | none => "SF"
  | some s => infer_position_from_stats (some s)

/-- Body of `normalize_position` after the reassignment
`pos = pos.upper().strip()` at line 333; `p` is the uppercased, stripped
code.  The `.error ()` value is the `ValueError` raised at line 359 when
`primary, secondary = pos.split("-")` unpacks a split that does not have
exactly two parts (any code with two or more dashes). -/
def normalize_core (p : List Char) (stats : Option StatLine) : Except Unit String :=
  if p = ['C'] then .ok "C"
    else if p = ['G'] then
      .ok (match stats with
        | some s => if s.ast > 4 ∨ (s.ast > 2 ∧ s.pts < 15) then "PG" else "SG"
        | none => "SG")
    else if p = ['F'] then
      .ok (match stats with
        | some s => if s.reb > 6 ∨ s.blk > 1 then "PF" else "SF"
        | none => "SF")
    else if '-' ∈ p then
      match splitDash p with
      | [primary, secondary] =>
        if primary = ['C'] then .ok "C"
        else if primary = ['F'] ∧ secondary = ['C'] then .ok "PF"
        else if 'F' ∈ p ∧ 'G' ∈ p then
          .ok (match stats with
            | some s => if s.ast > s.reb then "SG" else "SF"
            | none => "SF")
        else if primary = ['G'] then .ok "SG"
        else if primary = ['F'] then .ok "SF"
        else .ok (statsFallback stats)
      | _ => .error ()
    else .ok (statsFallback stats)

/-- `normalize_position` (lines 324-377): the empty-code guard at
line 330, then `pos.upper().strip()`, then the dispatch of
`normalize_core`. -/
def normalize_position (pos : List Char) (stats : Option StatLine) : Except Unit String :=
  if pos = [] then .ok (statsFallback stats)
  else normalize_core (pyStrip (pyUpper pos)) stats

/-- The five canonical position labels. -/
def positionLabels : List String := ["PG", "SG", "SF", "PF", "C"]

/-! ### Tiered roster cache — `get_all_players`, nba_service.py lines 421-457.

The four data sources are modelled as an environment record: each field
is the value the corresponding helper would produce on this request
(`none` standing for every path on which the helper returns Python
`None` or, for the live tier, hits an exception and returns `[]`).  The
model is polymorphic in the player-record type, since the tier logic
never inspects record contents.  Side effects are tracked by counting
how often each helper is invoked. -/

structure Effects where
  /-- invocations of `fetch_all_players_live` (line 443) -/
  liveCalls : Nat
  /-- invocations of `get_cached_players` (line 436) or `get_expired_cache` (line 450) -/
  snapshotReads : Nat
  /-- invocations of `save_to_cache` (line 282) -/
  cacheSaves : Nat
  /-- durable-store (Supabase) writes in the roster path: the source has none -/
  supabaseSaves : Nat
deriving DecidableEq

def noFx : Effects := ⟨0, 0, 0, 0⟩

structure Env (α : Type) where
  /-- result of `get_players_from_supabase` (lines 33-79): `none` when the
  client is missing, the query fails, or the table is empty -/
  supabase : Option (List α)
  /-- result of `get_cached_players` (lines 148-165): `none` when the
  snapshot file is missing, older than 24h, or unreadable -/
  freshSnapshot : Option (List α)
  /-- outcome of the upstream fetch inside `fetch_all_players_live`
  (lines 188-293): `some ps` when the fetch and record build succeed,
  `none` when an `ImportError` or any exception makes it return `[]`
  before reaching `save_to_cache` -/
  liveResult : Option (List α)
  /-- result of `get_expired_cache` (lines 406-418): the snapshot ignoring
  age, `none` when missing or unreadable -/
  expiredSnapshot : Option (List α)
  /-- whether the `save_to_cache` write succeeds; `save_to_cache` catches
  its own exceptions (lines 168-185), so nothing in the model reads this
  flag — a failed write is observationally identical to a successful one -/
  cacheSaveOk : Bool

/-- Python truthiness of an optional list (`if supabase_players:` and the
like): `None` and `[]` are falsy. -/
def listTruthy {α : Type} : Option (List α) → Bool
  | some (_ :: _) => true
  | _ => false

/-- `fetch_all_players_live` (lines 188-293) at tier granularity: on
success it builds the roster, calls `save_to_cache` and returns the
roster; on any failure it returns `[]` without saving. -/
def fetch_all_players_live {α : Type} (env : Env α) (fx : Effects) : List α × Effects :=
  match env.liveResult with
  | some ps =>
    (ps, { fx with liveCalls := fx.liveCalls + 1, cacheSaves := fx.cacheSaves + 1 })
  | none => ([], { fx with liveCalls := fx.liveCalls + 1 })

/-- Priorities 3-5 of `get_all_players` (lines 441-457): live fetch, then
expired snapshot, then empty list. -/
def live_then_fallback {α : Type} (env : Env α) (fx : Effects) : List α × Effects :=
  let r := fetch_all_players_live env fx
  if r.1.isEmpty then
    let fx2 := { r.2 with snapshotReads := r.2.snapshotReads + 1 }
    if listTruthy env.expiredSnapshot then (env.expiredSnapshot.getD [], fx2)
    else ([], fx2)
  else r

/-- `get_all_players` (lines 421-457): Supabase, then fresh local
snapshot (both only when `force_refresh` is false), then live fetch,
then expired snapshot, then `[]`. -/
def get_all_players {α : Type} (force_refresh : Bool) (env : Env α) : List α × Effects :=
  if force_refresh then live_then_fallback env noFx
  else if listTruthy env.supabase then (env.supabase.getD [], noFx)
  else
    let fx1 := { noFx with snapshotReads := 1 }
    if listTruthy env.freshSnapshot then (env.freshSnapshot.getD [], fx1)
    else live_then_fallback env fx1

/-! ### Journey reconstruction — `get_player_team_history`,
nba_service.py lines 561-611.  A career row carries a season's team id
and the provider's own abbreviation column. -/

structure CareerRow where
  team_id : Option Nat
  team_abbreviation : String

/-- `TEAM_ID_TO_ABBR` (lines 541-558).  The Python dict literal repeats
five keys under its "historical teams" comment with values identical to
the first binding, so the resulting dict is exactly these 30 pairs. -/
def TEAM_ID_TO_ABBR : List (Nat × String) := [
  (1610612737, "ATL"), (1610612738, "BOS"), (1610612739, "CLE"),
  (1610612740, "NOP"), (1610612741, "CHI"), (1610612742, "DAL"),
  (1610612743, "DEN"), (1610612744, "GSW"), (1610612745, "HOU"),
  (1610612746, "LAC"), (1610612747, "LAL"), (1610612748, "MIA"),
  (1610612749, "MIL"), (1610612750, "MIN"), (1610612751, "BKN"),
  (1610612752, "NYK"), (1610612753, "ORL"), (1610612754, "IND"),
  (1610612755, "PHI"), (1610612756, "PHX"), (1610612757, "POR"),
  (1610612758, "SAC"), (1610612759, "SAS"), (1610612760, "OKC"),
  (1610612761, "TOR"), (1610612762, "UTA"), (1610612763, "MEM"),
  (1610612764, "WAS"), (1610612765, "DET"), (1610612766, "CHA")]

/-- Lines 581-586: resolve a row's team to an abbreviation — table lookup
by id, falling back to the row's own abbreviation column when the id is
absent or unmapped (`if not team_abbr:` would also treat an empty mapped
string as missing). -/
def resolveRow (r : CareerRow) : String :=
  match r.team_id.bind (fun i => TEAM_ID_TO_ABBR.lookup i) with
  | some a => if a = "" then r.team_abbreviation else a
  | none => r.team_abbreviation

/-- Lines 592-602: remap of historical franchise codes. -/
def remap_historical (a : String) : String :=
  if a = "NJN" then "BKN"
  else if a = "SEA" then "OKC"
  else if a = "VAN" then "MEM"
  else if a = "NOH" ∨ a = "NOK" then "NOP"
  else if a = "CHH" then "CHA"
  else a

/-- One iteration of the loop at lines 580-605: skip combined-stats
("TOT") rows before remapping, then append only a truthy abbreviation
that differs from the last appended one. -/
def historyStep (teams : List String) (r : CareerRow) : List String :=
  let a := resolveRow r
  if a = "TOT" then teams
  else
    let b := remap_historical a
    if b ≠ "" ∧ (teams = [] ∨ teams.getLast? ≠ some b) then teams ++ [b]
    else teams

/-- `get_player_team_history` (lines 561-611) as a function of the
chronological career rows the upstream endpoint returned (the
surrounding try/except and the empty-dataframe guard both yield `[]`,
which the fold does on `[]` as well). -/
def get_player_team_history (rows : List CareerRow) : List String :=
  rows.foldl historyStep []

/-! ### Journey tiers — `get_journey_players`, nba_service.py lines
614-699.  The per-player probe loop of tier 3 (lines 653-680) is
represented by the environment's `liveJourney` list — the qualifying
players the loop accumulates — since claim C10 concerns tier selection,
not the loop's internals.  `random.shuffle` is modelled as an arbitrary
environment-supplied reordering. -/

structure JPlayer where
  pid : Nat
  pname : String
  teams : List String
  current_team : String

structure JEnv where
  /-- result of `get_journey_players_from_supabase` (lines 82-108):
  `none` when the client is missing, the query fails or the table is
  empty -/
  supabaseJourney : Option (List JPlayer)
  /-- contents of `journey_players.json` when the file exists, parses and
  is younger than 7×24h (lines 634-647); `none` otherwise -/
  fileCache : Option (List JPlayer)
  /-- the journey records the live per-player probe loop would build -/
  liveJourney : List JPlayer
  /-- `random.shuffle`, as an arbitrary reordering -/
  shuffle : List JPlayer → List JPlayer

structure JEffects where
  /-- attempts to read the journey file cache (line 635) -/
  fileCacheReads : Nat
  /-- whether the live per-player upstream probe ran (lines 649-680) -/
  livePlayerProbes : Bool

/-- Tiers 2-3 of `get_journey_players`: the week-fresh file cache
(filtered by `min_teams`, shuffled, truncated), then the live probe
(shuffled, truncated). -/
def journey_fallback (count min_teams : Nat) (env : JEnv) : List JPlayer × JEffects :=
  match env.fileCache with
  | some ps =>
    let filtered := ps.filter (fun p => min_teams ≤ p.teams.length)
    ((env.shuffle filtered).take count, ⟨1, false⟩)
  | none => ((env.shuffle env.liveJourney).take count, ⟨1, true⟩)

/-- `get_journey_players` (lines 614-699): the Supabase tier is used
only when it yields at least 10 records of which at least 10 pass the
`min_teams` filter; otherwise the call falls through to the file cache
and then to the live probe.  The guard
`if supabase_players and len(supabase_players) >= 10:` is modelled as a
length test on `getD []`, which a `None` result (length 0) fails just as
Python falsiness does. -/
def get_journey_players (count min_teams : Nat) (env : JEnv) : List JPlayer × JEffects :=
  if 10 ≤ (env.supabaseJourney.getD []).length then
    if 10 ≤ ((env.supabaseJourney.getD []).filter
        fun p => min_teams ≤ p.teams.length).length then
      ((env.shuffle ((env.supabaseJourney.getD []).filter
          fun p => min_teams ≤ p.teams.length)).take count,
        ⟨0, false⟩)
    else journey_fallback count min_teams env
  else journey_fallback count min_teams env

/-! ### Percentage-field conversion in the player record builder —
`fetch_all_players_live`, nba_service.py lines 270-272. -/

/-- Python `round(x, 1)` on exact rationals.  (CPython rounds exact .05
ties to even; no claim here exercises a tie.) -/
def pyRound1 (q : ℚ) : ℚ := ((round (q * 10) : ℤ) : ℚ) / 10

/-- The three percentage fields of the player dict (lines 270-272):
`fg_pct` is scaled by 100 only when the raw value is `< 1`, while
`fg3_pct` and `ft_pct` are scaled by 100 unconditionally. -/
def build_pct_fields (fg_pct fg3_pct ft_pct : ℚ) : ℚ × ℚ × ℚ :=
  (if fg_pct < 1 then pyRound1 (fg_pct * 100) else pyRound1 fg_pct,
    pyRound1 (fg3_pct * 100),
    pyRound1 (ft_pct * 100))

end GARU

namespace GARU

/-- Claim C4: for every stat line (all-zero and arbitrarily large values
included), the derived rating is an integer in the closed interval
[60, 99].  The clamp `min 99 (max 60 _)` makes this hold unconditionally,
with no non-negativity assumption needed. -/
theorem rating_bounded (pts reb ast stl blk fg_pct : ℚ) :
    60 ≤ rating pts reb ast stl blk fg_pct ∧ rating pts reb ast stl blk fg_pct ≤ 99 :=
  ⟨le_min (by norm_num) (le_max_left _ _), min_le_left _ _⟩

/-- Claim C5, counterexample: at the stat line pts=reb=ast=stl=blk=0,
fg_pct_fraction = 0.53, the intermediate value is 60.6; the code's
`int()` truncates it to 60 while the spec's `round` gives 61, so the
claimed round-then-clamp formula disagrees with the code. -/
theorem rating_round_cex :
    rating 0 0 0 0 0 (53/100) = 60 ∧ rate_spec 0 0 0 0 0 (53/100) = 61 ∧
      rating 0 0 0 0 0 (53/100) ≠ rate_spec 0 0 0 0 0 (53/100) := by
  refine ⟨?_, ?_, ?_⟩ <;> norm_num [rating, rate_spec, pyInt, round_eq]

/-- Claim C5 as amended: for non-negative stat lines the derived rating
equals the linear combination truncated (floored) to an integer — not
rounded to nearest — and then clamped into [60, 99]. -/
theorem rating_eq_clamped_floor (pts reb ast stl blk fg_pct : ℚ)
    (hp : 0 ≤ pts) (hr : 0 ≤ reb) (ha : 0 ≤ ast) (hs : 0 ≤ stl)
    (hb : 0 ≤ blk) (hf : 0 ≤ fg_pct) :
    rating pts reb ast stl blk fg_pct =
      min 99 (max 60
        (⌊50 + pts * 1.5 + reb * 0.8 + ast * 1.2 + stl * 2 + blk * 2 + fg_pct * 20⌋)) := by
  have h : ¬ (50 + pts * 1.5 + reb * 0.8 + ast * 1.2 + stl * 2 + blk * 2 + fg_pct * 20 < (0:ℚ)) := by
    push_neg
    have h1 : (0:ℚ) ≤ pts * 1.5 := by positivity
    have h2 : (0:ℚ) ≤ reb * 0.8 := by positivity
    have h3 : (0:ℚ) ≤ ast * 1.2 := by positivity
    have h4 : (0:ℚ) ≤ stl * 2 := by positivity
    have h5 : (0:ℚ) ≤ blk * 2 := by positivity
    have h6 : (0:ℚ) ≤ fg_pct * 20 := by positivity
    linarith
  simp only [rating, pyInt, if_neg h]

/-- Witness for `rating_eq_clamped_floor` at the all-zero stat line. -/
theorem rating_eq_clamped_floor_witness :
    rating 0 0 0 0 0 0 =
      min 99 (max 60 (⌊(50:ℚ) + 0 * 1.5 + 0 * 0.8 + 0 * 1.2 + 0 * 2 + 0 * 2 + 0 * 20⌋)) :=
  rating_eq_clamped_floor 0 0 0 0 0 0 le_rfl le_rfl le_rfl le_rfl le_rfl le_rfl

theorem splitDash_ne_nil (l : List Char) : splitDash l ≠ [] := by
  induction l with
  | nil => simp [splitDash]
  | cons c cs ih =>
    by_cases hc : c = '-'
    · simp [splitDash, hc]
    · cases h : splitDash cs with
      | nil => exact absurd h ih
      | cons a t => simp [splitDash, hc, h]

theorem splitDash_length (l : List Char) :
    (splitDash l).length = l.count '-' + 1 := by
  induction l with
  | nil => simp [splitDash]
  | cons c cs ih =>
    by_cases hc : c = '-'
    · subst hc
      simp [splitDash, ih, List.count_cons]
    · cases h : splitDash cs with
      | nil => exact absurd h (splitDash_ne_nil cs)
      | cons a t =>
        have : (a :: t).length = cs.count '-' + 1 := by rw [← h]; exact ih
        simp only [splitDash, if_neg hc, h, List.length_cons] at this ⊢
        rw [List.count_cons_of_ne (by simpa using Ne.symm hc)]
        omega

theorem statsFallback_mem (stats : Option StatLine) :
    statsFallback stats ∈ positionLabels := by
  cases stats with
  | none => simp [statsFallback, positionLabels]
  | some s =>
    simp only [statsFallback, infer_position_from_stats]
    split_ifs <;> simp [positionLabels]

theorem normalize_core_total (p : List Char) (stats : Option StatLine)
    (h : p.count '-' ≤ 1) :
    ∃ l, normalize_core p stats = .ok l ∧ l ∈ positionLabels := by
  unfold normalize_core
  by_cases h1 : p = ['C']
  · rw [if_pos h1]; exact ⟨"C", rfl, by simp [positionLabels]⟩
  rw [if_neg h1]
  by_cases h2 : p = ['G']
  · rw [if_pos h2]
    refine ⟨_, rfl, ?_⟩
    cases stats with
    | none => simp [positionLabels]
    | some s => dsimp only; split_ifs <;> simp [positionLabels]
  rw [if_neg h2]
  by_cases h3 : p = ['F']
  · rw [if_pos h3]
    refine ⟨_, rfl, ?_⟩
    cases stats with
    | none => simp [positionLabels]
    | some s => dsimp only; split_ifs <;> simp [positionLabels]
  rw [if_neg h3]
  by_cases h4 : '-' ∈ p
  · rw [if_pos h4]
    have hc1 : 0 < p.count '-' := List.count_pos_iff.mpr h4
    have hlen : (splitDash p).length = 2 := by
      rw [splitDash_length]; omega
    obtain ⟨a, b, hab⟩ : ∃ a b, splitDash p = [a, b] := by
      rcases hs : splitDash p with _ | ⟨x, _ | ⟨y, _ | ⟨z, zs⟩⟩⟩
      · rw [hs] at hlen; simp at hlen
      · rw [hs] at hlen; simp at hlen
      · exact ⟨x, y, rfl⟩
      · rw [hs] at hlen; simp at hlen
    rw [hab]
    dsimp only
    split_ifs
    · exact ⟨"C", rfl, by simp [positionLabels]⟩
    · exact ⟨"PF", rfl, by simp [positionLabels]⟩
    · refine ⟨_, rfl, ?_⟩
      cases stats with
      | none => simp [positionLabels]
      | some s => dsimp only; split_ifs <;> simp [positionLabels]
    · exact ⟨"SG", rfl, by simp [positionLabels]⟩
    · exact ⟨"SF", rfl, by simp [positionLabels]⟩
    · exact ⟨_, rfl, statsFallback_mem stats⟩
  · rw [if_neg h4]
    exact ⟨_, rfl, statsFallback_mem stats⟩

/-- Claim C6 as amended: the position normalizer is total on every raw
code whose uppercased, stripped form has at most one dash, and on every
optional stat line; on those inputs it always returns one of the five
labels PG, SG, SF, PF, C.  (A code with two or more dashes, such as
"G-F-C", raises a `ValueError` at the two-variable unpack of
`pos.split("-")` — see `normalize_multidash_cex`.) -/
theorem normalize_position_total (pos : List Char) (stats : Option StatLine)
    (h : (pyStrip (pyUpper pos)).count '-' ≤ 1) :
    ∃ l, normalize_position pos stats = .ok l ∧ l ∈ positionLabels := by
  unfold normalize_position
  by_cases h0 : pos = []
  · rw [if_pos h0]; exact ⟨_, rfl, statsFallback_mem stats⟩
  · rw [if_neg h0]; exact normalize_core_total _ stats h

/-- Witness for `normalize_position_total` at the combo code "G-F" with
no stat line. -/
theorem normalize_position_total_witness :
    ∃ l, normalize_position ['G', '-', 'F'] none = .ok l ∧ l ∈ positionLabels :=
  normalize_position_total ['G', '-', 'F'] none (by decide)

/-- Claim C6, counterexample: on the multi-hyphen code "G-F-C" the
normalizer is not total — the two-variable unpack of `pos.split("-")`
raises a `ValueError` instead of returning a label. -/
theorem normalize_multidash_cex :
    normalize_position ['G', '-', 'F', '-', 'C'] (some ⟨0, 0, 0, 0, 0⟩) = .error () := by
  rfl

/-- Claim C7, counterexample: the code resolves "C-F" to "C" (the
`primary == "C"` check at line 361 fires first), not to "PF" as the
claim states. -/
theorem normalize_CF_cex :
    normalize_position ['C', '-', 'F'] (some ⟨0, 0, 0, 0, 0⟩) = .ok "C" ∧
      ("C" : String) ≠ "PF" := by
  exact ⟨rfl, by decide⟩

/-- Claim C7 as amended: a hyphenated code resolves by its first
(primary) component, with "C" as primary always winning — so "C-F"
resolves to C, not PF — "F-C" resolving to PF, codes containing both
"F" and "G" resolving by assists-versus-rebounds to SG or SF, and the
remaining "G"/"F" primaries resolving to SG/SF without the single-letter
stat disambiguation. -/
theorem normalize_combo_behaviour (s : StatLine) :
    normalize_position ['C', '-', 'F'] (some s) = .ok "C" ∧
    normalize_position ['C', '-', 'G'] (some s) = .ok "C" ∧
    normalize_position ['F', '-', 'C'] (some s) = .ok "PF" ∧
    normalize_position ['G', '-', 'C'] (some s) = .ok "SG" ∧
    normalize_position ['G', '-', 'F'] (some s) =
      .ok (if s.ast > s.reb then "SG" else "SF") ∧
    normalize_position ['F', '-', 'G'] (some s) =
      .ok (if s.ast > s.reb then "SG" else "SF") :=
  ⟨rfl, rfl, rfl, rfl, rfl, rfl⟩

theorem listTruthy_some {α : Type} (ps : List α) (h : ps ≠ []) :
    listTruthy (some ps) = true := by
  cases ps with
  | nil => exact absurd rfl h
  | cons a t => rfl

/-- Claim C1: with `force_refresh` false the tiers are consulted strictly
in the order durable store, fresh snapshot, live fetch, stale snapshot,
empty roster.  Each conjunct settles one tier-hit case, giving the exact
returned data and the exact effect counts — in particular a durable-store
hit returns exactly that data with zero live calls and zero
local-snapshot reads. -/
theorem get_all_players_tier_order {α : Type} (env : Env α) :
    (∀ ps, env.supabase = some ps → ps ≠ [] →
      get_all_players false env = (ps, ⟨0, 0, 0, 0⟩)) ∧
    (listTruthy env.supabase = false →
      ∀ cs, env.freshSnapshot = some cs → cs ≠ [] →
      get_all_players false env = (cs, ⟨0, 1, 0, 0⟩)) ∧
    (listTruthy env.supabase = false → listTruthy env.freshSnapshot = false →
      ∀ ps, env.liveResult = some ps → ps ≠ [] →
      get_all_players false env = (ps, ⟨1, 1, 1, 0⟩)) ∧
    (listTruthy env.supabase = false → listTruthy env.freshSnapshot = false →
      env.liveResult = none →
      ∀ es, env.expiredSnapshot = some es → es ≠ [] →
      get_all_players false env = (es, ⟨1, 2, 0, 0⟩)) ∧
    (listTruthy env.supabase = false → listTruthy env.freshSnapshot = false →
      env.liveResult = none → listTruthy env.expiredSnapshot = false →
      get_all_players false env = ([], ⟨1, 2, 0, 0⟩)) := by
  refine ⟨?_, ?_, ?_, ?_, ?_⟩
  · intro ps hs hne
    simp [get_all_players, hs, listTruthy_some ps hne, noFx]
  · intro h1 cs hc hne
    simp [get_all_players, h1, hc, listTruthy_some cs hne, noFx]
  · intro h1 h2 ps hl hne
    simp [get_all_players, h1, h2, live_then_fallback, fetch_all_players_live,
      hl, hne, noFx, List.isEmpty_iff]
  · intro h1 h2 h3 es he hne
    simp [get_all_players, h1, h2, h3, he, live_then_fallback,
      fetch_all_players_live, listTruthy_some es hne, noFx, List.isEmpty_iff]
  · intro h1 h2 h3 h4
    simp [get_all_players, h1, h2, h3, h4, live_then_fallback,
      fetch_all_players_live, noFx]

/-- Witness for `get_all_players_tier_order`: all four sources available,
the durable-store data is returned untouched with zero effects. -/
theorem get_all_players_tier_order_witness :
    get_all_players false
        (⟨some [5], some [1], some [2], some [3], true⟩ : Env Nat) =
      ([5], ⟨0, 0, 0, 0⟩) :=
  (get_all_players_tier_order
      (⟨some [5], some [1], some [2], some [3], true⟩ : Env Nat)).1
    [5] rfl (by decide)

/-- Claim C2: `get_all_players` never propagates a failure — it is a
total function of its tier outcomes (every Python exception path is
caught in the source) — and when the durable store yields nothing, no
usable snapshot exists and the live fetch fails, it returns the empty
roster. -/
theorem get_all_players_all_fail {α : Type} (force_refresh : Bool) (env : Env α)
    (h1 : listTruthy env.supabase = false)
    (h2 : listTruthy env.freshSnapshot = false)
    (h3 : env.liveResult = none)
    (h4 : listTruthy env.expiredSnapshot = false) :
    (get_all_players force_refresh env).1 = [] := by
  cases force_refresh <;>
    simp [get_all_players, h1, h2, h3, h4, live_then_fallback,
      fetch_all_players_live, noFx]

/-- Witness for `get_all_players_all_fail`: every tier empty. -/
theorem get_all_players_all_fail_witness :
    (get_all_players false (⟨none, none, none, none, true⟩ : Env Nat)).1 = [] :=
  get_all_players_all_fail false _ rfl rfl rfl rfl

/-- Claim C3, counterexample: a successful live fetch returns the fresh
roster after exactly one `save_to_cache` call and zero durable-store
writes — the roster pipeline never persists to Supabase (the Supabase
sync lives in a separate script, outside `get_all_players`), so the
claimed persist "to both the durable store and the local snapshot" fails
on the durable half. -/
theorem live_fetch_no_durable_persist_cex :
    (get_all_players false (⟨none, none, some [7], none, true⟩ : Env Nat)).1 = [7] ∧
    (get_all_players false (⟨none, none, some [7], none, true⟩ : Env Nat)).2.cacheSaves = 1 ∧
    (get_all_players false (⟨none, none, some [7], none, true⟩ : Env Nat)).2.supabaseSaves = 0 := by
  refine ⟨?_, ?_, ?_⟩ <;> rfl

/-- Claim C3 as amended: when the live-fetch tier succeeds, the fresh
roster is persisted to the local snapshot (exactly one `save_to_cache`
call, counted before the data is returned) but not to the durable store,
and a failing snapshot write is non-fatal: `env.cacheSaveOk` is
arbitrary here and the returned data does not depend on it. -/
theorem live_fetch_persists_snapshot_only {α : Type} (env : Env α) (ps : List α)
    (hl : env.liveResult = some ps) (hne : ps ≠ []) :
    get_all_players true env = (ps, ⟨1, 0, 1, 0⟩) := by
  simp [get_all_players, live_then_fallback, fetch_all_players_live, hl, hne, noFx,
    List.isEmpty_iff]

/-- Witness for `live_fetch_persists_snapshot_only`, with the snapshot
write failing (`cacheSaveOk = false`): the fresh data is still returned. -/
theorem live_fetch_persists_snapshot_only_witness :
    get_all_players true (⟨none, none, some [9], none, false⟩ : Env Nat) =
      ([9], ⟨1, 0, 1, 0⟩) :=
  live_fetch_persists_snapshot_only _ [9] rfl (by decide)

theorem remap_historical_ne_TOT (a : String) (h : a ≠ "TOT") :
    remap_historical a ≠ "TOT" := by
  unfold remap_historical
  split_ifs <;> first | decide | exact h

theorem historyStep_TOT (teams : List String) (r : CareerRow)
    (h : resolveRow r = "TOT") : historyStep teams r = teams := by
  simp [historyStep, h]

theorem foldl_historyStep_TOT_not_mem (rows : List CareerRow)
    (acc : List String) (h : "TOT" ∉ acc) :
    "TOT" ∉ rows.foldl historyStep acc := by
  induction rows generalizing acc with
  | nil => simpa using h
  | cons r rs ih =>
    apply ih
    simp only [historyStep]
    split_ifs with h1 h2
    · exact h
    · intro hmem
      rcases List.mem_append.mp hmem with hin | hin
      · exact h hin
      · have hb : "TOT" = remap_historical (resolveRow r) := by simpa using hin
        exact remap_historical_ne_TOT _ h1 hb.symm
    · exact h

theorem foldl_historyStep_chain (rows : List CareerRow)
    (acc : List String) (h : acc.Chain' (· ≠ ·)) :
    (rows.foldl historyStep acc).Chain' (· ≠ ·) := by
  induction rows generalizing acc with
  | nil => simpa using h
  | cons r rs ih =>
    apply ih
    simp only [historyStep]
    split_ifs with h1 h2
    · exact h
    · rw [List.chain'_append]
      refine ⟨h, List.chain'_singleton _, ?_⟩
      intro x hx y hy
      have hyb : remap_historical (resolveRow r) = y := by simpa using hy
      rcases h2.2 with hnil | hlast
      · subst hnil; simp at hx
      · intro hxy
        rw [Option.mem_def] at hx
        apply hlast
        rw [hx, hxy, ← hyb]
    · exact h

/-- Claim C8: journey reconstruction (a) drops every row whose resolved
abbreviation is the combined-stats marker "TOT" — removing such a row
from anywhere in the career changes nothing, and "TOT" never appears in
the output; (b) remaps the historical franchise codes SEA→OKC, VAN→MEM,
NJN→BKN, NOH/NOK→NOP, CHH→CHA; (c) never appends the same abbreviation
twice in a row; and (d) sends rows resolving to ATL, ATL, BOS, BOS, ATL
to the output [ATL, BOS, ATL]. -/
theorem journey_reconstruction_spec :
    (∀ rows₁ rows₂ (r : CareerRow), resolveRow r = "TOT" →
      get_player_team_history (rows₁ ++ r :: rows₂) =
        get_player_team_history (rows₁ ++ rows₂)) ∧
    (∀ rows, "TOT" ∉ get_player_team_history rows) ∧
    remap_historical "SEA" = "OKC" ∧ remap_historical "VAN" = "MEM" ∧
    remap_historical "NJN" = "BKN" ∧ remap_historical "NOH" = "NOP" ∧
    remap_historical "NOK" = "NOP" ∧ remap_historical "CHH" = "CHA" ∧
    (∀ rows, (get_player_team_history rows).Chain' (· ≠ ·)) ∧
    get_player_team_history
        [⟨none, "ATL"⟩, ⟨none, "ATL"⟩, ⟨none, "BOS"⟩,
         ⟨none, "BOS"⟩, ⟨none, "ATL"⟩] = ["ATL", "BOS", "ATL"] := by
  refine ⟨?_, ?_, rfl, rfl, rfl, rfl, rfl, rfl, ?_, rfl⟩
  · intro rows₁ rows₂ r h
    unfold get_player_team_history
    rw [List.foldl_append, List.foldl_cons, historyStep_TOT _ r h, ← List.foldl_append]
  · intro rows
    exact foldl_historyStep_TOT_not_mem rows [] (by simp)
  · intro rows
    exact foldl_historyStep_chain rows [] (by simp)

/-- Witness for `journey_reconstruction_spec`: dropping a mid-career
"TOT" aggregate row (here one whose id is unmapped and whose own
abbreviation column reads "TOT") leaves the journey unchanged. -/
theorem journey_reconstruction_spec_witness :
    get_player_team_history [⟨none, "ATL"⟩, ⟨none, "TOT"⟩, ⟨none, "BOS"⟩] =
      get_player_team_history [⟨none, "ATL"⟩, ⟨none, "BOS"⟩] :=
  journey_reconstruction_spec.1 [⟨none, "ATL"⟩] [⟨none, "BOS"⟩] ⟨none, "TOT"⟩ rfl

/-- Claim C10: the durable journey tier is used only when Supabase
yields at least 10 records of which at least 10 survive the `min_teams`
filter (first conjunct); if the filtered count misses the threshold —
which subsumes the raw count missing it, as filtering never grows a
list — the durable data is discarded wholesale and the call runs the
file-cache/live-probe fallback (second conjunct), reaching the live
per-player probe when no file cache exists, even though the durable
store held qualifying players (third conjunct). -/
theorem journey_supabase_threshold (count min_teams : Nat) (env : JEnv) :
    (∀ sp, env.supabaseJourney = some sp → 10 ≤ sp.length →
      10 ≤ (sp.filter (fun p => min_teams ≤ p.teams.length)).length →
      get_journey_players count min_teams env =
        ((env.shuffle (sp.filter (fun p => min_teams ≤ p.teams.length))).take count,
          ⟨0, false⟩)) ∧
    (∀ sp, env.supabaseJourney = some sp →
      (sp.filter (fun p => min_teams ≤ p.teams.length)).length < 10 →
      get_journey_players count min_teams env = journey_fallback count min_teams env) ∧
    (∀ sp, env.supabaseJourney = some sp →
      (sp.filter (fun p => min_teams ≤ p.teams.length)).length < 10 →
      env.fileCache = none →
      (get_journey_players count min_teams env).2.livePlayerProbes = true) := by
  have hfall : ∀ sp, env.supabaseJourney = some sp →
      (sp.filter (fun p => min_teams ≤ p.teams.length)).length < 10 →
      get_journey_players count min_teams env = journey_fallback count min_teams env := by
    intro sp hs hlt
    unfold get_journey_players
    rw [hs]
    simp only [Option.getD_some]
    by_cases hlen : 10 ≤ sp.length
    · rw [if_pos hlen, if_neg (by omega)]
    · rw [if_neg hlen]
  refine ⟨?_, hfall, ?_⟩
  · intro sp hs h10 hf
    unfold get_journey_players
    rw [hs]
    simp only [Option.getD_some]
    rw [if_pos h10, if_pos hf]
  · intro sp hs hlt hfc
    rw [hfall sp hs hlt]
    unfold journey_fallback
    rw [hfc]

/-- Witness for `journey_supabase_threshold`: the durable store holds
nine qualifying journey players — one short of the threshold — no file
cache exists, and the live per-player probe runs anyway. -/
theorem journey_supabase_threshold_witness :
    (get_journey_players 30 3
        ⟨some (List.replicate 9 ⟨1, "p", ["ATL", "BOS", "CHI"], "CHI"⟩),
          none, [], fun l => l⟩).2.livePlayerProbes = true :=
  (journey_supabase_threshold 30 3
      ⟨some (List.replicate 9 ⟨1, "p", ["ATL", "BOS", "CHI"], "CHI"⟩),
        none, [], fun l => l⟩).2.2
    (List.replicate 9 ⟨1, "p", ["ATL", "BOS", "CHI"], "CHI"⟩) rfl (by decide) rfl

/-- Claim C9, counterexample: a three-point percentage arriving already
on the 0-100 scale is not left alone — the builder multiplies `fg3_pct`
by 100 unconditionally, so a raw value of 45 becomes 4500, not 45. -/
theorem pct_scale_cex :
    (build_pct_fields 0 45 0).2.1 = 4500 ∧ ((4500 : ℚ) ≠ 45) := by
  constructor
  · norm_num [build_pct_fields, pyRound1, round_eq]
  · norm_num

/-- Claim C9 as amended: the `< 1.0` fraction detection is applied only
to the field-goal percentage; the three-point and free-throw percentages
are multiplied by 100 unconditionally (they are assumed to arrive as 0-1
fractions). -/
theorem pct_scale_amended (fg fg3 ft : ℚ) :
    (fg < 1 → (build_pct_fields fg fg3 ft).1 = pyRound1 (fg * 100)) ∧
    (1 ≤ fg → (build_pct_fields fg fg3 ft).1 = pyRound1 fg) ∧
    (build_pct_fields fg fg3 ft).2.1 = pyRound1 (fg3 * 100) ∧
    (build_pct_fields fg fg3 ft).2.2 = pyRound1 (ft * 100) := by
  refine ⟨fun h => ?_, fun h => ?_, rfl, rfl⟩
  · simp [build_pct_fields, if_pos h]
  · simp [build_pct_fields, if_neg (not_lt.mpr h)]

/-- Witness for `pct_scale_amended`: a field-goal percentage arriving on
the 0-100 scale is left unscaled. -/
theorem pct_scale_amended_witness :
    (build_pct_fields 45 (45 : ℚ) 45).1 = pyRound1 45 :=
  (pct_scale_amended 45 45 45).2.1 (by norm_num)

/-- Witness for `rating_bounded` at the all-zero stat line. -/
theorem rating_bounded_witness :
    60 ≤ rating 0 0 0 0 0 0 ∧ rating 0 0 0 0 0 0 ≤ 99 :=
  rating_bounded 0 0 0 0 0 0

/-- Witness for `normalize_combo_behaviour` at an all-zero stat line. -/
theorem normalize_combo_behaviour_witness :
    normalize_position ['F', '-', 'C'] (some ⟨0, 0, 0, 0, 0⟩) = .ok "PF" :=
  (normalize_combo_behaviour ⟨0, 0, 0, 0, 0⟩).2.2.1

end GARU
